import Mathlib

/-!
Shallow embedding of the VectorShift OAuth frontend (HubSpot integration):
the session-identifier initializer and connection-status handling of
`IntegrationSelector`, the `fetchContacts` callback of `useFetchHubspotItems`,
the `handleHubspotCallback` exchange wrapper, the `processCallback` effect of
the `HubspotCallback` page, the token-expiry wrapper
`ContactListWithErrorHandling`, and the full-name rendering of `ContactList`.
JavaScript strings are modelled as `String`, absent or null values as
`Option`, and truthiness checks explicitly.
-/

namespace VectorShiftOAuth

/-- JavaScript truthiness of a possibly absent string: truthy exactly when the
value is present and non-empty (null, undefined and the empty string are
falsy). -/
def strTruthy : Option String → Bool
  | none => false
  | some s => decide (s ≠ "")

/-- JavaScript `a || b` where `a` is a possibly absent string and `b` a plain
string. -/
def jsOrStr (a : Option String) (b : String) : String :=
  match a with
  | some s => if s = "" then b else s
  | none => b

/-- JavaScript `a || b` on two possibly absent strings. -/
def jsOrOpt (a b : Option String) : Option String :=
  if strTruthy a then a else b

/-- Test whether the first list occurs at the head of the second. -/
def headMatches : List Char → List Char → Bool
  | [], _ => true
  | _ :: _, [] => false
  | a :: as, b :: bs => a == b && headMatches as bs

/-- Test whether the pattern occurs as a contiguous run anywhere in the
list. -/
def occursIn (pat : List Char) : List Char → Bool
  | [] => pat.isEmpty
  | c :: rest => headMatches pat (c :: rest) || occursIn pat rest

/-- JavaScript `s.includes(pat)`: substring containment. -/
def jsIncludes (s pat : String) : Bool := occursIn pat.data s.data

/-- Contact record as consumed by this frontend; every field may be absent in
the backend payload. -/
structure Contact where
  id : Option String
  firstname : Option String
  lastname : Option String
  email : Option String
  deriving DecidableEq

/-- Nested `data` object of a backend response body, carrying an optional
application-level `error` string and an optional `contacts` array. -/
structure ApiData where
  error : Option String
  contacts : Option (List Contact)
  deriving DecidableEq

/-- Response body (the `data` field of the HTTP client response or of an
error response): an optional nested `data` object and an optional top-level
`detail` field used by error responses. -/
structure ApiBody where
  data : Option ApiData
  detail : Option String
  deriving DecidableEq

/-- Outcome of a single axios GET, as distinguished by the catch branches in
the source: a 2xx response with a parsed body; an HTTP error response
(`error.response` present) with an optional body and a status text; a network
failure (`error.request` present, no response); or any other thrown exception
carrying its message. -/
inductive FetchOutcome where
  | success (body : ApiBody)
  | httpError (body : Option ApiBody) (statusText : String)
  | networkError
  | otherError (msg : String)
  deriving DecidableEq

/-- Component-local state of the `useFetchHubspotItems` hook. -/
structure FetchState where
  contacts : List Contact
  loading : Bool
  error : Option String
  deriving DecidableEq

/-- Initial hook state of `useFetchHubspotItems`: empty contacts, loading
false, error null. -/
def initFetchState : FetchState :=
  { contacts := [], loading := false, error := none }

/-- State after the opening statements of `fetchContacts`: raise the loading
flag and clear any prior error. -/
def fetchStart (st : FetchState) : FetchState :=
  { st with loading := true, error := none }

/-- Error message chosen by the catch branch of `fetchContacts`: for a server
error response, the nested error field, else the detail field, else the HTTP
status text; for a network failure, the fixed unable-to-connect string; for
any other exception, its own message. -/
def fetchErrorMessage : FetchOutcome → Option String
  | .success _ => none
  | .httpError body statusText =>
      some (jsOrStr (jsOrOpt ((body.bind ApiBody.data).bind ApiData.error)
                             (body.bind ApiBody.detail)) statusText)
  | .networkError => some "Unable to connect to server"
  | .otherError msg => some msg

/-- Model of the `fetchContacts` callback of `useFetchHubspotItems`: given the
hook state and the outcome of the HTTP call, returns the settled hook state
together with the value the returned promise resolves with. The try block
handles the embedded-error check and the contacts extraction, the catch block
converts every thrown error into the error state with empty contacts, and the
finally block clears the loading flag on every path. -/
def fetchContacts (st : FetchState) (o : FetchOutcome) : FetchState × List Contact :=
  let st0 := fetchStart st
  let settled :=
    match o with
    | .success body =>
        let embedded := (body.data).bind ApiData.error
        if strTruthy embedded then
          ({ st0 with error := embedded, contacts := [] }, ([] : List Contact))
        else
          let contactsData := ((body.data).bind ApiData.contacts).getD []
          ({ st0 with contacts := contactsData }, contactsData)
    | o =>
        ({ st0 with error := fetchErrorMessage o, contacts := [] }, ([] : List Contact))
  ({ settled.1 with loading := false }, settled.2)

/-- JavaScript `s.trim()`: drop whitespace from both ends of the string. -/
def jsTrim (s : String) : String :=
  ⟨((s.data.dropWhile Char.isWhitespace).reverse.dropWhile Char.isWhitespace).reverse⟩

/-- Full-name rendering of `ContactList`: keep the first and last name parts
that are present, non-empty and non-blank, join them with a single space, and
fall back to the unknown-contact label when nothing remains. -/
def fullName (c : Contact) : String :=
  let parts := [c.firstname, c.lastname].filterMap fun n =>
    match n with
    | none => none
    | some s => if s = "" then none else if jsTrim s = "" then none else some s
  let joined := String.intercalate " " parts
  if joined = "" then "Unknown Contact" else joined

/-- Query parameters extracted from the callback URL by `HubspotCallback`;
each is absent or a string. -/
structure CallbackParams where
  code : Option String
  state : Option String
  error : Option String
  errorDescription : Option String
  deriving DecidableEq

/-- Model of `handleHubspotCallback`: given the outcome of the token-exchange
GET, either return normally or throw an `Error` whose message is built by the
catch branch: the server detail field (else the status text) behind the
callback-failed label when an error response is present; a fixed
connect-failure message when the request got no response; and the original
exception message behind the processing-failed label otherwise. -/
def handleHubspotCallback : FetchOutcome → Except String Unit
  | .success _ => .ok ()
  | .httpError body statusText =>
      .error ("OAuth callback failed: " ++ jsOrStr (body.bind ApiBody.detail) statusText)
  | .networkError => .error "Failed to connect to callback server"
  | .otherError msg => .error ("OAuth callback processing failed: " ++ msg)

/-- Status values of the `HubspotCallback` page. -/
inductive CallbackStatus where
  | processing
  | success
  | error
  deriving DecidableEq

/-- Observable result of one `HubspotCallback` page load: the final status,
the headline message, the error-details string if any, and whether the
token-exchange request was issued. -/
structure CallbackResult where
  status : CallbackStatus
  message : String
  errorDetail : Option String
  exchangeIssued : Bool
  deriving DecidableEq

/-- Model of the `processCallback` effect of `HubspotCallback`: handle a
provider error parameter first, then a missing authorization code, and
otherwise issue the token exchange exactly once, mapping its result onto the
terminal status; a thrown message lands in the error-details state, with an
unknown-error fallback when the message is falsy. -/
def processCallback (p : CallbackParams) (ex : FetchOutcome) : CallbackResult :=
  if strTruthy p.error then
    { status := .error
      message := "HubSpot authorization failed"
      errorDetail := some (jsOrStr p.errorDescription (p.error.getD ""))
      exchangeIssued := false }
  else if !strTruthy p.code then
    { status := .error
      message := "No authorization code received"
      errorDetail := some "Missing authorization code in callback URL"
      exchangeIssued := false }
  else
    match handleHubspotCallback ex with
    | .ok _ =>
        { status := .success
          message := "HubSpot connected successfully!"
          errorDetail := none
          exchangeIssued := true }
    | .error m =>
        { status := .error
          message := "Failed to connect HubSpot"
          errorDetail := some (if m = "" then "Unknown error occurred" else m)
          exchangeIssued := true }

/-- Local-storage cell holding the session-identifier entry. -/
structure LocalStorage where
  sessionId : Option String
  deriving DecidableEq

/-- Session identifier generated on first use: the fixed user tag, the current
time in milliseconds, and a random base-36 component, joined by
underscores. -/
def mkSessionId (now : Nat) (rand : String) : String :=
  "user_" ++ toString now ++ "_" ++ rand

/-- Model of the session-identifier initializer of `IntegrationSelector`:
read the stored value; if it is missing or empty, generate a fresh identifier
from the current time and a random component and store it; return the
identifier together with the updated storage. -/
def getOrCreateSessionId (store : LocalStorage) (now : Nat) (rand : String) :
    String × LocalStorage :=
  if strTruthy store.sessionId then
    (store.sessionId.getD "", store)
  else
    let id := mkSessionId now rand
    (id, { sessionId := some id })

/-- Connection-status values tracked per integration by the selector. -/
inductive ConnStatus where
  | disconnected
  | connecting
  | connected
  | error
  deriving DecidableEq

/-- Phrase the wrapper component looks for in the fetcher error state. -/
def tokenExpiredPhrase : String := "Token expired, please reconnect."

/-- Trigger condition of the token-expiry effect in
`ContactListWithErrorHandling`: the fetcher error is truthy and includes the
token-expiry phrase as a substring. -/
def tokenExpiryTrigger (error : Option String) : Bool :=
  strTruthy error && jsIncludes (error.getD "") tokenExpiredPhrase

/-- Callback the selector passes as `onTokenExpired`: reset the HubSpot
connection status to disconnected. -/
def onTokenExpired (_cs : ConnStatus) : ConnStatus :=
  ConnStatus.disconnected

/-- Combined effect of `ContactListWithErrorHandling` on the connection
status owned by `IntegrationSelector`: when the trigger condition holds on
the fetcher error, the `onTokenExpired` callback fires and the status becomes
disconnected; otherwise the status is left unchanged. -/
def contactListErrorEffect (cs : ConnStatus) (error : Option String) : ConnStatus :=
  if tokenExpiryTrigger error then onTokenExpired cs else cs

/-- Sample contact used by the concrete test scenarios. -/
def sampleContact : Contact :=
  { id := some "1", firstname := some "A", lastname := some "B",
    email := some "a@b.com" }

/-- Sample successful contacts payload wrapping the sample contact. -/
def sampleBody : ApiBody :=
  { data := some { error := none, contacts := some [sampleContact] },
    detail := none }

/-- Helper: truthiness of a present string is exactly non-emptiness. -/
theorem strTruthy_some (s : String) : strTruthy (some s) = true ↔ s ≠ "" := by
  simp [strTruthy]

/-- Helper: a falsy left operand makes the JavaScript or-default pick the
right operand. -/
theorem jsOrStr_falsy (a : Option String) (b : String) (h : strTruthy a = false) :
    jsOrStr a b = b := by
  cases a with
  | none => rfl
  | some s =>
    simp [strTruthy] at h
    simp [jsOrStr, h]

/-- Helper: a truthy left operand makes the JavaScript or-default pick the
left operand. -/
theorem jsOrStr_truthy (s : String) (b : String) (h : s ≠ "") :
    jsOrStr (some s) b = s := by
  simp [jsOrStr, h]

/-- Helper: a generated session identifier is never the empty string. -/
theorem mkSessionId_ne_empty (t : Nat) (r : String) : mkSessionId t r ≠ "" := by
  intro h
  have h2 := congrArg String.length h
  simp [mkSessionId, String.length_append] at h2
  exact absurd h2.1.1.1 (by decide)

/-- Helper: appending anything to a non-empty label stays non-empty. -/
theorem labelled_ne_empty (a x : String) (ha : a ≠ "") : a ++ x ≠ "" := by
  intro h
  have h2 := congrArg String.length h
  rw [String.length_append] at h2
  have h3 : ("" : String).length = 0 := rfl
  rw [h3] at h2
  have h4 : a.length = 0 := by omega
  have h5 : a = "" := by
    cases a with
    | mk data =>
      cases data with
      | nil => rfl
      | cons c cs => simp [String.length] at h4
  exact ha h5

/-- Claim C4: within one persisted-storage context the session-identifier
accessor is idempotent: a second call returns the identical string and leaves
the storage unchanged, and on first invocation with no stored entry it
generates the identifier from the fixed user tag, the time component and the
random component, and persists exactly that value. -/
theorem sessionId_idempotent (store : LocalStorage) (t1 t2 : Nat) (r1 r2 : String) :
    (getOrCreateSessionId (getOrCreateSessionId store t1 r1).2 t2 r2).1
      = (getOrCreateSessionId store t1 r1).1
  ∧ (getOrCreateSessionId (getOrCreateSessionId store t1 r1).2 t2 r2).2
      = (getOrCreateSessionId store t1 r1).2
  ∧ (store.sessionId = none →
      (getOrCreateSessionId store t1 r1).1 = mkSessionId t1 r1
      ∧ (getOrCreateSessionId store t1 r1).2.sessionId = some (mkSessionId t1 r1)) := by
  by_cases h : strTruthy store.sessionId = true
  · refine ⟨?_, ?_, ?_⟩
    · simp [getOrCreateSessionId, h]
    · simp [getOrCreateSessionId, h]
    · intro hnone
      rw [hnone] at h
      simp [strTruthy] at h
  · have h0 : strTruthy store.sessionId = false := by
      revert h
      cases strTruthy store.sessionId <;> simp
    have h1 : strTruthy (some (mkSessionId t1 r1)) = true := by
      simp [strTruthy, mkSessionId_ne_empty]
    refine ⟨?_, ?_, ?_⟩
    · simp [getOrCreateSessionId, h0, h1]
    · simp [getOrCreateSessionId, h0, h1]
    · intro _
      simp [getOrCreateSessionId, h0]

/-- Claim C4 witness: starting from empty storage, the second call returns
the value of the first, and the first call returns the generated
identifier. -/
theorem sessionId_idempotent_witness :
    (getOrCreateSessionId (getOrCreateSessionId ⟨none⟩ 1 "abc").2 2 "xyz").1
      = (getOrCreateSessionId ⟨none⟩ 1 "abc").1
  ∧ (getOrCreateSessionId ⟨none⟩ 1 "abc").1 = mkSessionId 1 "abc" :=
  ⟨(sessionId_idempotent ⟨none⟩ 1 2 "abc" "xyz").1,
   ((sessionId_idempotent ⟨none⟩ 1 2 "abc" "xyz").2.2 rfl).1⟩

/-- Claim C7: the loading flag is raised by the opening step of every
`fetchContacts` call and is false after settlement on every path: success,
embedded logical error, or thrown exception; the finalization is the single
outer step of the model. -/
theorem fetch_loading_finalized (st : FetchState) (o : FetchOutcome) :
    (fetchStart st).loading = true ∧ (fetchContacts st o).1.loading = false :=
  ⟨rfl, rfl⟩

/-- Claim C6: a network-level failure (request sent, no response) settles the
fetcher with exactly the fixed unable-to-connect message, empty stored
contacts, a cleared loading flag, and resolves with the empty list. -/
theorem fetch_network_failure (st : FetchState) :
    ((fetchContacts st FetchOutcome.networkError).1.error
        = some "Unable to connect to server")
  ∧ ((fetchContacts st FetchOutcome.networkError).1.contacts = [])
  ∧ ((fetchContacts st FetchOutcome.networkError).1.loading = false)
  ∧ ((fetchContacts st FetchOutcome.networkError).2 = []) :=
  ⟨rfl, rfl, rfl, rfl⟩

/-- Helper: a Boolean that is not true is false. -/
theorem bool_eq_false {b : Bool} (h : ¬ b = true) : b = false := by
  revert h
  cases b <;> simp

/-- Claim C3: a contacts request that succeeds at the HTTP level but whose
payload embeds a non-empty application-level error string settles the fetcher
with exactly that string as the error state, clears the stored contacts, and
resolves with the empty list. -/
theorem fetch_embedded_error (st : FetchState) (body : ApiBody) (e : String)
    (he : (body.data).bind ApiData.error = some e) (hne : e ≠ "") :
    ((fetchContacts st (FetchOutcome.success body)).1.error = some e)
  ∧ ((fetchContacts st (FetchOutcome.success body)).1.contacts = [])
  ∧ ((fetchContacts st (FetchOutcome.success body)).2 = []) := by
  have ht : strTruthy ((body.data).bind ApiData.error) = true := by
    rw [he]
    simp [strTruthy, hne]
  refine ⟨?_, ?_, ?_⟩ <;> simp [fetchContacts, fetchStart, he, strTruthy, hne]

/-- Claim C3 witness: a concrete 200 payload with an embedded error string
settles with that error, no contacts, and an empty resolution. -/
theorem fetch_embedded_error_witness :
    ((fetchContacts initFetchState (FetchOutcome.success
        { data := some { error := some "boom", contacts := none },
          detail := none })).1.error = some "boom")
  ∧ ((fetchContacts initFetchState (FetchOutcome.success
        { data := some { error := some "boom", contacts := none },
          detail := none })).1.contacts = [])
  ∧ ((fetchContacts initFetchState (FetchOutcome.success
        { data := some { error := some "boom", contacts := none },
          detail := none })).2 = []) :=
  fetch_embedded_error initFetchState
    { data := some { error := some "boom", contacts := none }, detail := none }
    "boom" rfl (by decide)

/-- Claim C8: on a 2xx response without an embedded error, `fetchContacts`
resolves with exactly the contacts array extracted from the nested payload,
defaulting to the empty list when absent, and stores the same list; on the
concrete single-contact payload it resolves with the one record of identifier
1, and `ContactList` renders its full name as the first and last name joined
by a single space. -/
theorem fetch_success_extraction :
    (∀ (st : FetchState) (body : ApiBody),
      strTruthy ((body.data).bind ApiData.error) = false →
      (fetchContacts st (FetchOutcome.success body)).2
          = ((body.data).bind ApiData.contacts).getD []
      ∧ (fetchContacts st (FetchOutcome.success body)).1.contacts
          = ((body.data).bind ApiData.contacts).getD [])
  ∧ ((fetchContacts initFetchState (FetchOutcome.success sampleBody)).2
      = [sampleContact])
  ∧ ((fetchContacts initFetchState (FetchOutcome.success sampleBody)).2.map
        Contact.id = [some "1"])
  ∧ (fullName sampleContact = "A B") := by
  refine ⟨?_, ?_, ?_, ?_⟩
  · intro st body h
    constructor <;> simp [fetchContacts, fetchStart, h]
  · decide
  · decide
  · decide

/-- Claim C8 witness: the general extraction clause instantiated at the
concrete sample payload. -/
theorem fetch_success_extraction_witness :
    (fetchContacts initFetchState (FetchOutcome.success sampleBody)).2
      = ((sampleBody.data).bind ApiData.contacts).getD [] :=
  (fetch_success_extraction.1 initFetchState sampleBody (by decide)).1

/-- Claim C9: every `fetchContacts` call settles with a resolution value that
is an array equal to the stored contacts; it is the extracted contacts on a
clean success and the empty array on every failure path, and every failure
path records a component-local error state. -/
theorem fetch_resolution (st : FetchState) (o : FetchOutcome) :
    ((fetchContacts st o).2 = (fetchContacts st o).1.contacts)
  ∧ ((fetchContacts st o).2 = [] ∨
      ∃ body, o = FetchOutcome.success body
        ∧ strTruthy ((body.data).bind ApiData.error) = false
        ∧ (fetchContacts st o).2 = ((body.data).bind ApiData.contacts).getD [])
  ∧ (∀ body statusText, o = FetchOutcome.httpError body statusText →
        (fetchContacts st o).1.error.isSome = true ∧ (fetchContacts st o).2 = [])
  ∧ (o = FetchOutcome.networkError →
        (fetchContacts st o).1.error.isSome = true ∧ (fetchContacts st o).2 = [])
  ∧ (∀ m, o = FetchOutcome.otherError m →
        (fetchContacts st o).1.error.isSome = true ∧ (fetchContacts st o).2 = []) := by
  refine ⟨?_, ?_, ?_, ?_, ?_⟩
  · cases o with
    | success body =>
        by_cases h : strTruthy ((body.data).bind ApiData.error) = true
        · simp [fetchContacts, fetchStart, h]
        · simp [fetchContacts, fetchStart, bool_eq_false h]
    | httpError body statusText => rfl
    | networkError => rfl
    | otherError m => rfl
  · cases o with
    | success body =>
        by_cases h : strTruthy ((body.data).bind ApiData.error) = true
        · exact Or.inl (by simp [fetchContacts, fetchStart, h])
        · exact Or.inr ⟨body, rfl, bool_eq_false h,
            by simp [fetchContacts, fetchStart, bool_eq_false h]⟩
    | httpError body statusText => exact Or.inl rfl
    | networkError => exact Or.inl rfl
    | otherError m => exact Or.inl rfl
  · intro body statusText ho
    subst ho
    exact ⟨rfl, rfl⟩
  · intro ho
    subst ho
    exact ⟨rfl, rfl⟩
  · intro m ho
    subst ho
    exact ⟨rfl, rfl⟩

/-- Claim C9 witness: the failure clause instantiated at a concrete network
failure. -/
theorem fetch_resolution_witness :
    (fetchContacts initFetchState FetchOutcome.networkError).1.error.isSome = true
  ∧ (fetchContacts initFetchState FetchOutcome.networkError).2 = [] :=
  (fetch_resolution initFetchState FetchOutcome.networkError).2.2.2.1 rfl

/-- Claim C1 counterexample: for a callback load with a code whose exchange
fails with HTTP 401 and body detail equal to the string bad code, the page
reaches the error state but the error-details string is the detail behind
the callback-failed label, not the bare detail string. -/
theorem callback_detail_prefixed_cex :
    (processCallback
        { code := some "abc123", state := some "user_1",
          error := none, errorDescription := none }
        (FetchOutcome.httpError
          (some { data := none, detail := some "bad code" }) "Unauthorized")).status
      = CallbackStatus.error
  ∧ (processCallback
        { code := some "abc123", state := some "user_1",
          error := none, errorDescription := none }
        (FetchOutcome.httpError
          (some { data := none, detail := some "bad code" }) "Unauthorized")).errorDetail
      = some "OAuth callback failed: bad code"
  ∧ (processCallback
        { code := some "abc123", state := some "user_1",
          error := none, errorDescription := none }
        (FetchOutcome.httpError
          (some { data := none, detail := some "bad code" }) "Unauthorized")).errorDetail
      ≠ some "bad code" := by
  refine ⟨by decide, by decide, by decide⟩

/-- Claim C1 (amended): on a callback load with a code and no error
parameter, a failed exchange drives the page to the error state with the
error-details string derived, in precedence order, from the server detail
field behind the callback-failed label, else the HTTP status text behind the
same label, else the fixed connect-failure message, else the exception
message behind the processing-failed label. -/
theorem callback_exchange_error_precedence (p : CallbackParams)
    (hcode : strTruthy p.code = true) (herr : strTruthy p.error = false) :
    (∀ body statusText d, body.bind ApiBody.detail = some d → d ≠ "" →
      (processCallback p (FetchOutcome.httpError body statusText)).status
          = CallbackStatus.error
      ∧ (processCallback p (FetchOutcome.httpError body statusText)).errorDetail
          = some ("OAuth callback failed: " ++ d))
  ∧ (∀ body statusText, strTruthy (body.bind ApiBody.detail) = false →
      (processCallback p (FetchOutcome.httpError body statusText)).status
          = CallbackStatus.error
      ∧ (processCallback p (FetchOutcome.httpError body statusText)).errorDetail
          = some ("OAuth callback failed: " ++ statusText))
  ∧ ((processCallback p FetchOutcome.networkError).status = CallbackStatus.error
     ∧ (processCallback p FetchOutcome.networkError).errorDetail
         = some "Failed to connect to callback server")
  ∧ (∀ m, (processCallback p (FetchOutcome.otherError m)).status = CallbackStatus.error
      ∧ (processCallback p (FetchOutcome.otherError m)).errorDetail
          = some ("OAuth callback processing failed: " ++ m)) := by
  refine ⟨?_, ?_, ⟨?_, ?_⟩, ?_⟩
  · intro body statusText d hd hdne
    have hm : jsOrStr (body.bind ApiBody.detail) statusText = d := by
      rw [hd]
      exact jsOrStr_truthy d statusText hdne
    constructor
    · simp [processCallback, herr, hcode, handleHubspotCallback]
    · simp [processCallback, herr, hcode, handleHubspotCallback, hm,
            labelled_ne_empty "OAuth callback failed: " d (by decide)]
  · intro body statusText hdf
    have hm : jsOrStr (body.bind ApiBody.detail) statusText = statusText :=
      jsOrStr_falsy _ _ hdf
    constructor
    · simp [processCallback, herr, hcode, handleHubspotCallback]
    · simp [processCallback, herr, hcode, handleHubspotCallback, hm,
            labelled_ne_empty "OAuth callback failed: " statusText (by decide)]
  · simp [processCallback, herr, hcode, handleHubspotCallback]
  · simp [processCallback, herr, hcode, handleHubspotCallback]
  · intro m
    constructor
    · simp [processCallback, herr, hcode, handleHubspotCallback]
    · simp [processCallback, herr, hcode, handleHubspotCallback,
            labelled_ne_empty "OAuth callback processing failed: " m (by decide)]

/-- Claim C1 witness: the amended precedence instantiated at the concrete 401
exchange failure with body detail bad code. -/
theorem callback_exchange_error_precedence_witness :
    (processCallback
        { code := some "abc123", state := some "user_1",
          error := none, errorDescription := none }
        (FetchOutcome.httpError
          (some { data := none, detail := some "bad code" }) "Unauthorized")).errorDetail
      = some ("OAuth callback failed: " ++ "bad code") :=
  ((callback_exchange_error_precedence
      { code := some "abc123", state := some "user_1",
        error := none, errorDescription := none }
      (by decide) (by decide)).1
    (some { data := none, detail := some "bad code" }) "Unauthorized" "bad code"
    rfl (by decide)).2

/-- Claim C5: a callback load whose URL carries a non-empty error parameter
reaches the error state without issuing the token exchange, and the
error-details string is the error description when present and non-empty,
else the raw error code. -/
theorem callback_error_param (p : CallbackParams) (ex : FetchOutcome) (v : String)
    (hv : p.error = some v) (hne : v ≠ "") :
    (processCallback p ex).status = CallbackStatus.error
  ∧ (processCallback p ex).exchangeIssued = false
  ∧ (∀ d, p.errorDescription = some d → d ≠ "" →
      (processCallback p ex).errorDetail = some d)
  ∧ (strTruthy p.errorDescription = false →
      (processCallback p ex).errorDetail = some v) := by
  have ht : strTruthy p.error = true := by
    rw [hv]
    simp [strTruthy, hne]
  have ht2 : strTruthy (some v) = true := by simp [strTruthy, hne]
  refine ⟨?_, ?_, ?_, ?_⟩
  · simp [processCallback, ht]
  · simp [processCallback, ht]
  · intro d hd hdne
    simp [processCallback, ht, ht2, hv, hd, jsOrStr_truthy d _ hdne]
  · intro hdf
    simp [processCallback, ht, ht2, hv, jsOrStr_falsy _ _ hdf]

/-- Claim C5 witness: a concrete denied-authorization callback with no
description reaches the error state, issues no exchange, and shows the raw
code. -/
theorem callback_error_param_witness :
    (processCallback
        { code := none, state := none, error := some "access_denied",
          errorDescription := none } FetchOutcome.networkError).status
      = CallbackStatus.error
  ∧ (processCallback
        { code := none, state := none, error := some "access_denied",
          errorDescription := none } FetchOutcome.networkError).exchangeIssued
      = false
  ∧ (processCallback
        { code := none, state := none, error := some "access_denied",
          errorDescription := none } FetchOutcome.networkError).errorDetail
      = some "access_denied" :=
  have h := callback_error_param
    { code := none, state := none, error := some "access_denied",
      errorDescription := none } FetchOutcome.networkError "access_denied"
    rfl (by decide)
  ⟨h.1, h.2.1, h.2.2.2 rfl⟩

/-- Claim C10: when the callback URL carries both a non-empty error parameter
and a code parameter, the error branch wins: the page reaches the error state
and the token exchange is never issued, for every code value and every
possible exchange outcome. -/
theorem callback_error_beats_code (c s ed : Option String) (v : String)
    (ex : FetchOutcome) (hne : v ≠ "") :
    (processCallback
        { code := c, state := s, error := some v, errorDescription := ed } ex).status
      = CallbackStatus.error
  ∧ (processCallback
        { code := c, state := s, error := some v, errorDescription := ed } ex).exchangeIssued
      = false := by
  have ht : strTruthy (some v) = true := by simp [strTruthy, hne]
  constructor <;> simp [processCallback, ht]

/-- Claim C10 witness: a denied-authorization callback that also carries a
valid-looking code stays in the error state with no exchange issued. -/
theorem callback_error_beats_code_witness :
    (processCallback
        { code := some "goodcode", state := some "u1",
          error := some "access_denied", errorDescription := none }
        (FetchOutcome.success { data := none, detail := none })).status
      = CallbackStatus.error
  ∧ (processCallback
        { code := some "goodcode", state := some "u1",
          error := some "access_denied", errorDescription := none }
        (FetchOutcome.success { data := none, detail := none })).exchangeIssued
      = false :=
  callback_error_beats_code (some "goodcode") (some "u1") none "access_denied"
    (FetchOutcome.success { data := none, detail := none }) (by decide)

/-- Claim C2 counterexample: an error string that strictly contains the
token-expiry phrase, and is therefore not equal to it, still fires the
token-expiry trigger and disconnects the view, so the transition is not
governed by exact string match. -/
theorem tokenExpiry_exact_match_cex :
    tokenExpiryTrigger
        (some "Error: Token expired, please reconnect. Contact support.") = true
  ∧ ("Error: Token expired, please reconnect. Contact support."
      ≠ tokenExpiredPhrase)
  ∧ contactListErrorEffect ConnStatus.connected
        (some "Error: Token expired, please reconnect. Contact support.")
      = ConnStatus.disconnected := by
  refine ⟨by decide, by decide, by decide⟩

/-- Claim C2 (amended): with a non-empty fetcher error, the composing view
transitions connected to disconnected exactly when the error contains the
token-expiry phrase as a substring; in particular a 200 contacts response
embedding exactly the phrase settles the fetcher error to the phrase and
disconnects the view. -/
theorem tokenExpiry_transition (e : String) (hne : e ≠ "") :
    (contactListErrorEffect ConnStatus.connected (some e) = ConnStatus.disconnected
      ↔ jsIncludes e tokenExpiredPhrase = true)
  ∧ ((fetchContacts initFetchState (FetchOutcome.success
        { data := some { error := some tokenExpiredPhrase, contacts := none },
          detail := none })).1.error = some tokenExpiredPhrase)
  ∧ (contactListErrorEffect ConnStatus.connected
        (fetchContacts initFetchState (FetchOutcome.success
          { data := some { error := some tokenExpiredPhrase, contacts := none },
            detail := none })).1.error = ConnStatus.disconnected) := by
  refine ⟨?_, by decide, by decide⟩
  have ht : strTruthy (some e) = true := by simp [strTruthy, hne]
  by_cases h : jsIncludes e tokenExpiredPhrase = true
  · simp [contactListErrorEffect, tokenExpiryTrigger, onTokenExpired, ht, h]
  · simp [contactListErrorEffect, tokenExpiryTrigger, onTokenExpired, ht,
          bool_eq_false h]

/-- Claim C2 witness: the substring characterization instantiated at the
phrase itself. -/
theorem tokenExpiry_transition_witness :
    contactListErrorEffect ConnStatus.connected (some tokenExpiredPhrase)
      = ConnStatus.disconnected
  ↔ jsIncludes tokenExpiredPhrase tokenExpiredPhrase = true :=
  (tokenExpiry_transition tokenExpiredPhrase (by decide)).1

end VectorShiftOAuth
